import Mathlib

/-!
# Verification of the SwimForge Garmin Connect microservice (src/garmin-service/main.py)

Shallow embedding of the authentication/MFA state machine of the service.

Modelling conventions:
* Python dicts `sessions` and `pending_mfa` (keyed by user id) become
  association lists `List (String × _)`; dict membership/read is `lookupKey`,
  `del d[k]` is `eraseKey`, `d[k] = v` is `insertKey` (overwrite).
* The token-file directory becomes the list of user ids that currently have a
  token file; `Path.unlink` is `removeFile`, `garth.dump` adds the id.
* Timestamps (`datetime.now()`) are natural numbers counting seconds.  The
  Python expiry test `(now - created_at).total_seconds() > 600` becomes
  `now - created_at > 600` on `Nat`; for `created_at` in the future Python
  gets a negative difference and Lean gets `0`, and neither exceeds `600`,
  so the two agree.
* Remote calls (`client.login()`, `client.resume_login(...)`,
  `client.get_activities(...)`) are blocking calls whose outcome is an
  explicit input of the operation; exceptions carry their `str(e)` message,
  which the service classifies by substring tests exactly as the source does.
* `client.garth.dump` sits in a `try/except` whose failure is non-fatal; the
  boolean `saveOk` input says whether the write succeeded.
* `client.display_name` sits in a `try/except` falling back to the email;
  the `Option String` input `displayName` is `none` when the read raises.
* Human-readable response messages (Italian free text) are carried by no
  claim and are omitted from the response records; HTTP errors keep only
  their status code.
-/

namespace GarminService

/-! ## Association-list model of the Python dicts -/

def lookupKey {α : Type} (k : String) : List (String × α) → Option α
  | [] => none
  | (k', v) :: rest => if k' = k then some v else lookupKey k rest

def eraseKey {α : Type} (k : String) : List (String × α) → List (String × α)
  | [] => []
  | (k', v) :: rest => if k' = k then eraseKey k rest else (k', v) :: eraseKey k rest

def insertKey {α : Type} (k : String) (v : α) (l : List (String × α)) :
    List (String × α) :=
  (k, v) :: eraseKey k l

def removeFile (u : String) : List String → List String
  | [] => []
  | f :: rest => if f = u then removeFile u rest else f :: removeFile u rest

/-! ## Python substring tests (`needle in haystack`) -/

def charsLead : List Char → List Char → Bool
  | [], _ => true
  | _ :: _, [] => false
  | a :: as, b :: bs => if a = b then charsLead as bs else false

def charsContain (needle : List Char) : List Char → Bool
  | [] => charsLead needle []
  | b :: bs => if charsLead needle (b :: bs) then true else charsContain needle bs

def substrIn (needle hay : String) : Bool :=
  charsContain needle.data hay.data

/-! ## Data model -/

/-- In-memory session record: `sessions[user_id]` (main.py lines 331-337,
443-449).  `client` is the opaque Garmin client handle. -/
structure Session where
  client : Nat
  email : String
  display_name : String
  last_sync : Option Nat
  connected_at : Nat
deriving DecidableEq

/-- Pending MFA record: `pending_mfa[user_id]` (main.py lines 300-305). -/
structure PendingMfa where
  client : Nat
  mfa_state : Nat
  email : String
  created_at : Nat
deriving DecidableEq

/-- The whole mutable state of the service process: the two dicts plus the
token-file directory. -/
structure ServiceState where
  sessions : List (String × Session)
  pending_mfa : List (String × PendingMfa)
  token_files : List String
deriving DecidableEq

def st_empty : ServiceState := ⟨[], [], []⟩

/-- `LoginResponse` (success/user_id/mfa_required; free-text message omitted). -/
structure LoginResponse where
  success : Bool
  user_id : Option String
  mfa_required : Bool
deriving DecidableEq

/-- `StatusResponse` of `GET /auth/status/{user_id}`. -/
structure StatusResponse where
  connected : Bool
  email : Option String
  last_sync : Option Nat
  display_name : Option String
deriving DecidableEq

/-- Reply of `GET /auth/mfa-status/{user_id}`. -/
structure MfaStatusResponse where
  pending : Bool
  remaining_seconds : Nat
deriving DecidableEq

/-- An endpoint result: normal JSON value or an `HTTPException` status. -/
inductive HResult (α : Type) where
  | ok (a : α)
  | error (status : Nat)
deriving DecidableEq

/-! ## Remote-provider outcomes -/

/-- Outcome of `client.login()` in the login endpoint: a non-tuple result
(success), the tuple `("needs_mfa", mfa_state)`, or a raised exception with
message `msg`. -/
inductive GarminLoginResult where
  | ok
  | needsMfa (mfaState : Nat)
  | exn (msg : String)
deriving DecidableEq

/-- Outcome of `client.resume_login(mfa_state, code)`: success or a raised
exception with message `msg`. -/
inductive ResumeResult where
  | ok
  | exn (msg : String)
deriving DecidableEq

/-- Minimal shape of one raw Garmin activity as used by the filtering loop
(main.py lines 554-564).  `typeKey` is
`activity.get("activityType", {}).get("typeKey", "")`, `startTimeLocal` is
`activity.get("startTimeLocal", "")`, and `parsedTime` is the result of
`datetime.fromisoformat` on it (`none` = the parse raised).  The
swimming-specific field mapping (`parse_swimming_activity`) is a pure,
stateless projection that no claim touches, so filtered activities are kept
in raw form. -/
structure RawActivity where
  typeKey : String
  startTimeLocal : String
  parsedTime : Option Nat
deriving DecidableEq

/-- Outcome of `client.get_activities(0, 100)`. -/
inductive FetchResult where
  | ok (activities : List RawActivity)
  | exn (msg : String)
deriving DecidableEq

/-! ## Helper functions from the source -/

/-- `cleanup_expired_mfa` (main.py lines 217-227): drop every pending entry
older than 600 seconds. -/
def cleanup_expired_mfa (now : Nat) :
    List (String × PendingMfa) → List (String × PendingMfa)
  | [] => []
  | (u, m) :: rest =>
      if now - m.created_at > 600 then cleanup_expired_mfa now rest
      else (u, m) :: cleanup_expired_mfa now rest

/-- `is_swimming_activity` (main.py lines 177-180). -/
def is_swimming_activity (a : RawActivity) : Bool :=
  substrIn "swim" a.typeKey.toLower || substrIn "pool" a.typeKey.toLower

/-- The filtering loop of `get_swimming_activities` (main.py lines 553-564):
keep swimming activities whose local start date parses to a time at or after
`start_date`, keep those whose date fails to parse, drop those with an empty
date string. -/
def filter_swimming (start_date : Nat) : List RawActivity → List RawActivity
  | [] => []
  | a :: rest =>
      if is_swimming_activity a then
        if a.startTimeLocal = "" then filter_swimming start_date rest
        else
          match a.parsedTime with
          | some t =>
              if start_date ≤ t then a :: filter_swimming start_date rest
              else filter_swimming start_date rest
          | none => a :: filter_swimming start_date rest
      else filter_swimming start_date rest

/-- Error classification of the `except` clause of the login endpoint
(main.py lines 348-367), returning the HTTP status raised. -/
def classify_login_error (error_str : String) : Nat :=
  if substrIn "401" error_str || substrIn "Unauthorized" error_str ||
      substrIn "Authentication" error_str then 401
  else if substrIn "MFA" error_str.toUpper || substrIn "needs_mfa" error_str.toLower
    then 400
  else 500

/-- Error classification of the inner `except` clause of the MFA endpoint
(main.py lines 403-423), returning the HTTP status raised. -/
def classify_mfa_error (error_str : String) : Nat :=
  if substrIn "401" error_str || substrIn "403" error_str ||
      substrIn "Invalid" error_str then 401
  else if substrIn "429" error_str then 429
  else 500

/-! ## Endpoints -/

/-- The part of `POST /auth/login` that runs before the remote
`client.login()` call (main.py lines 254-277): sweep expired MFA entries,
delete the token file of the user, delete the pending-MFA entry of the user.  The
`sessions` dict is not touched here. -/
def login_prelude (st : ServiceState) (user_id : String) (now : Nat) :
    ServiceState :=
  { st with
    pending_mfa := eraseKey user_id (cleanup_expired_mfa now st.pending_mfa),
    token_files := removeFile user_id st.token_files }

/-- `POST /auth/login` (main.py lines 246-367).  `client` is the handle of
the freshly constructed `Garmin(...)` object; `remote` is the outcome of
`client.login()`. -/
def login (st : ServiceState) (user_id email password : String)
    (now client : Nat) (remote : GarminLoginResult) (saveOk : Bool)
    (displayName : Option String) : ServiceState × HResult LoginResponse :=
  let st1 := login_prelude st user_id now
  match remote with
  | .needsMfa mfaState =>
      ({ st1 with
         pending_mfa :=
           insertKey user_id ⟨client, mfaState, email, now⟩ st1.pending_mfa },
       .ok ⟨false, some user_id, true⟩)
  | .ok =>
      let dn := displayName.getD email
      ({ st1 with
         sessions := insertKey user_id ⟨client, email, dn, none, now⟩ st1.sessions,
         token_files :=
           if saveOk then user_id :: st1.token_files else st1.token_files },
       .ok ⟨true, some user_id, false⟩)
  | .exn msg => (st1, .error (classify_login_error msg))

/-- `POST /auth/mfa` (main.py lines 370-465).  `remote` is the outcome of
`client.resume_login(mfa_state, mfa_code)`. -/
def complete_mfa (st : ServiceState) (user_id mfa_code : String) (now : Nat)
    (remote : ResumeResult) (saveOk : Bool) (displayName : Option String) :
    ServiceState × HResult LoginResponse :=
  match lookupKey user_id st.pending_mfa with
  | none => (st, .error 400)
  | some ms =>
      if now - ms.created_at > 600 then
        ({ st with pending_mfa := eraseKey user_id st.pending_mfa }, .error 400)
      else
        match remote with
        | .exn msg =>
            let status := classify_mfa_error msg
            if status = 401 then (st, .error 401)
            else if status = 429 then
              ({ st with pending_mfa := eraseKey user_id st.pending_mfa },
               .error 429)
            else (st, .error 500)
        | .ok =>
            let dn := displayName.getD ms.email
            ({ sessions :=
                 insertKey user_id ⟨ms.client, ms.email, dn, none, now⟩ st.sessions,
               pending_mfa := eraseKey user_id st.pending_mfa,
               token_files :=
                 if saveOk then user_id :: removeFile user_id st.token_files
                 else st.token_files },
             .ok ⟨true, some user_id, false⟩)

/-- `GET /auth/mfa-status/{user_id}` (main.py lines 468-482): sweeps expired
entries, then reports whether a pending entry remains and its remaining
lifetime `max(0, 600 - elapsed)`. -/
def get_mfa_status (st : ServiceState) (user_id : String) (now : Nat) :
    ServiceState × MfaStatusResponse :=
  let pending1 := cleanup_expired_mfa now st.pending_mfa
  let st1 := { st with pending_mfa := pending1 }
  match lookupKey user_id pending1 with
  | some m =>
      (st1, ⟨true, (max 0 (600 - ((now : Int) - (m.created_at : Int)))).toNat⟩)
  | none => (st1, ⟨false, 0⟩)

/-- `POST /auth/logout` (main.py lines 485-502): drop the session, drop the
pending MFA entry, unlink the token file (`missing_ok=True`), always report
success. -/
def logout (st : ServiceState) (user_id : String) : ServiceState × Bool :=
  ({ sessions := eraseKey user_id st.sessions,
     pending_mfa := eraseKey user_id st.pending_mfa,
     token_files := removeFile user_id st.token_files },
   true)

/-- `GET /auth/status/{user_id}` (main.py lines 505-527). -/
def get_status (st : ServiceState) (user_id : String) :
    ServiceState × StatusResponse :=
  match lookupKey user_id st.sessions with
  | some s => (st, ⟨true, some s.email, s.last_sync, some s.display_name⟩)
  | none =>
      if user_id ∈ st.token_files then
        (st, ⟨true, none, none, some "(Token salvato)"⟩)
      else (st, ⟨false, none, none, none⟩)

/-- Reply of `GET /activities/swimming/{user_id}`. -/
structure ActivitiesReply where
  count : Nat
  activities : List RawActivity
deriving DecidableEq

/-- `GET /activities/swimming/{user_id}` (main.py lines 530-579).  `remote`
is the outcome of `client.get_activities(0, 100)`; every exception is
surfaced as an unclassified 500 and the state is untouched. -/
def get_swimming_activities (st : ServiceState) (user_id : String)
    (days_back now : Nat) (remote : FetchResult) :
    ServiceState × HResult ActivitiesReply :=
  match lookupKey user_id st.sessions with
  | none => (st, .error 401)
  | some _ =>
      match remote with
      | .exn _ => (st, .error 500)
      | .ok acts =>
          let swims := filter_swimming (now - days_back * 86400) acts
          (st, .ok ⟨swims.length, swims⟩)

/-- Reply of `POST /sync`. -/
structure SyncReply where
  synced_count : Nat
  activities : List RawActivity
deriving DecidableEq

/-- `POST /sync` (main.py lines 582-621): delegates to
`get_swimming_activities`, then stamps `last_sync` on the session. -/
def sync_activities (st : ServiceState) (user_id : String)
    (days_back now : Nat) (remote : FetchResult) :
    ServiceState × HResult SyncReply :=
  match lookupKey user_id st.sessions with
  | none => (st, .error 401)
  | some _ =>
      match get_swimming_activities st user_id days_back now remote with
      | (st1, .error code) => (st1, .error code)
      | (st1, .ok rep) =>
          let st2 :=
            match lookupKey user_id st1.sessions with
            | some s =>
                { st1 with
                  sessions :=
                    insertKey user_id { s with last_sync := some now } st1.sessions }
            | none => st1
          (st2, .ok ⟨rep.count, rep.activities⟩)

/-- `GET /health` (main.py lines 236-243): sweeps expired MFA entries and
reports the two store sizes. -/
def health_check (st : ServiceState) (now : Nat) :
    ServiceState × (Nat × Nat) :=
  let st1 := { st with pending_mfa := cleanup_expired_mfa now st.pending_mfa }
  (st1, (st1.sessions.length, st1.pending_mfa.length))

/-! ## Library lemmas about the store model -/

theorem lookupKey_eq_none_of_not_mem_keys {α : Type} (k : String)
    (l : List (String × α)) (h : ∀ p ∈ l, p.1 ≠ k) : lookupKey k l = none := by
  induction l with
  | nil => rfl
  | cons p rest ih =>
      obtain ⟨k', v⟩ := p
      have hk : k' ≠ k := h (k', v) (List.mem_cons_self _ _)
      simp only [lookupKey, if_neg hk]
      exact ih fun q hq => h q (List.mem_cons_of_mem _ hq)

theorem lookupKey_eraseKey_self {α : Type} (k : String)
    (l : List (String × α)) : lookupKey k (eraseKey k l) = none := by
  induction l with
  | nil => rfl
  | cons p rest ih =>
      obtain ⟨k', v⟩ := p
      by_cases h : k' = k
      · simpa [eraseKey, h] using ih
      · simpa [eraseKey, lookupKey, h] using ih

theorem eraseKey_eq_self_of_lookup_none {α : Type} (k : String)
    (l : List (String × α)) (h : lookupKey k l = none) : eraseKey k l = l := by
  induction l with
  | nil => rfl
  | cons p rest ih =>
      obtain ⟨k', v⟩ := p
      by_cases hk : k' = k
      · simp [lookupKey, hk] at h
      · simp only [lookupKey, if_neg hk] at h
        simp [eraseKey, hk, ih h]

theorem eraseKey_idem {α : Type} (k : String) (l : List (String × α)) :
    eraseKey k (eraseKey k l) = eraseKey k l :=
  eraseKey_eq_self_of_lookup_none k _ (lookupKey_eraseKey_self k l)

theorem lookupKey_insertKey_self {α : Type} (k : String) (v : α)
    (l : List (String × α)) : lookupKey k (insertKey k v l) = some v := by
  simp [insertKey, lookupKey]

theorem not_mem_removeFile (u : String) (l : List String) :
    u ∉ removeFile u l := by
  induction l with
  | nil => simp [removeFile]
  | cons f rest ih =>
      by_cases h : f = u
      · simpa [removeFile, h] using ih
      · simp [removeFile, h, ih, Ne.symm h]

theorem removeFile_eq_self_of_not_mem (u : String) (l : List String)
    (h : u ∉ l) : removeFile u l = l := by
  induction l with
  | nil => rfl
  | cons f rest ih =>
      have hf : f ≠ u := fun hfu => h (hfu ▸ List.mem_cons_self _ _)
      have hrest : u ∉ rest := fun hu => h (List.mem_cons_of_mem _ hu)
      simp [removeFile, hf, ih hrest]

theorem removeFile_idem (u : String) (l : List String) :
    removeFile u (removeFile u l) = removeFile u l :=
  removeFile_eq_self_of_not_mem u _ (not_mem_removeFile u l)

theorem mem_of_mem_cleanup (now : Nat) (p : String × PendingMfa)
    (l : List (String × PendingMfa)) (h : p ∈ cleanup_expired_mfa now l) :
    p ∈ l := by
  induction l with
  | nil => simp [cleanup_expired_mfa] at h
  | cons q rest ih =>
      obtain ⟨u, m⟩ := q
      by_cases hexp : now - m.created_at > 600
      · simp only [cleanup_expired_mfa, if_pos hexp] at h
        exact List.mem_cons_of_mem _ (ih h)
      · simp only [cleanup_expired_mfa, if_neg hexp] at h
        rcases List.mem_cons.mp h with h1 | h2
        · exact h1 ▸ List.mem_cons_self _ _
        · exact List.mem_cons_of_mem _ (ih h2)

/-- On a store with no duplicate keys, the lazy sweep keeps exactly the
unexpired entries: looking up `k` after `cleanup_expired_mfa` finds the old
entry iff it has not exceeded the TTL. -/
theorem lookupKey_cleanup (now : Nat) (k : String) (m : PendingMfa)
    (l : List (String × PendingMfa)) (hn : (l.map Prod.fst).Nodup)
    (h : lookupKey k l = some m) :
    lookupKey k (cleanup_expired_mfa now l) =
      if now - m.created_at > 600 then none else some m := by
  induction l with
  | nil => simp [lookupKey] at h
  | cons p rest ih =>
      obtain ⟨k', v⟩ := p
      simp only [List.map_cons, List.nodup_cons] at hn
      by_cases hk : k' = k
      · subst hk
        have hv : v = m := by simpa [lookupKey] using h
        subst hv
        by_cases hexp : now - v.created_at > 600
        · simp only [cleanup_expired_mfa, if_pos hexp, if_pos hexp]
          apply lookupKey_eq_none_of_not_mem_keys
          intro q hq hqk
          exact hn.1 (hqk ▸ List.mem_map_of_mem Prod.fst
            (mem_of_mem_cleanup now q rest hq))
        · simp [cleanup_expired_mfa, hexp, lookupKey]
      · simp only [lookupKey, if_neg hk] at h
        by_cases hexp : now - v.created_at > 600
        · simp only [cleanup_expired_mfa, if_pos hexp]
          exact ih hn.2 h
        · simp only [cleanup_expired_mfa, if_neg hexp, lookupKey, if_neg hk]
          exact ih hn.2 h

/-! ## Concrete fixture states for witnesses and counterexamples -/

def sessionW : Session := ⟨1, "a@x.com", "A", none, 0⟩

def pendW : PendingMfa := ⟨2, 9, "b@x.com", 100⟩

def stW : ServiceState := ⟨[("u1", sessionW)], [("u2", pendW)], ["u1"]⟩

/-! ## Claims -/

/-- Claim C6: for a user with a valid, unexpired PendingChallenge,
`SubmitChallenge` with a code the remote rejects as incorrect (an error the
classifier maps to 401) leaves the whole state — in particular the
pending-MFA entry — unchanged and fails with HTTP 401; when the remote
signals rate-limiting (classified 429), the pending entry is removed and the
call fails with HTTP 429. -/
theorem C6_thm (st : ServiceState) (u code : String) (now : Nat) (msg : String)
    (m : PendingMfa) (saveOk : Bool) (dn : Option String)
    (h : lookupKey u st.pending_mfa = some m)
    (hexp : now - m.created_at ≤ 600) :
    (classify_mfa_error msg = 401 →
        complete_mfa st u code now (.exn msg) saveOk dn = (st, .error 401)) ∧
    (classify_mfa_error msg = 429 →
        complete_mfa st u code now (.exn msg) saveOk dn =
          ({ st with pending_mfa := eraseKey u st.pending_mfa }, .error 429)) := by
  have hnot : ¬ (now - m.created_at > 600) := by omega
  constructor
  · intro hc
    simp [complete_mfa, h, hnot, hc]
  · intro hc
    simp [complete_mfa, h, hnot, hc]

/-- Witness for C6 at a concrete state: an "Invalid" rejection keeps the
state and yields 401; a "429" rejection purges the pending entry and yields
429. -/
theorem C6_witness :
    complete_mfa stW "u2" "111111" 200 (.exn "Invalid") true none =
      (stW, .error 401) ∧
    complete_mfa stW "u2" "111111" 200 (.exn "429") true none =
      ({ stW with pending_mfa := eraseKey "u2" stW.pending_mfa }, .error 429) := by
  constructor
  · exact (C6_thm stW "u2" "111111" 200 "Invalid" pendW true none (by decide)
      (by decide)).1 (by decide)
  · exact (C6_thm stW "u2" "111111" 200 "429" pendW true none (by decide)
      (by decide)).2 (by decide)

/-- Claim C7: `SubmitChallenge` resolves the pending store first; with no
pending entry, or with an entry past its TTL, it fails immediately with a
classified 400 — for every possible remote outcome `r`, i.e. without the
remote resume capability influencing the result. -/
theorem C7_thm (st : ServiceState) (u code : String) (now : Nat)
    (r : ResumeResult) (saveOk : Bool) (dn : Option String) :
    (lookupKey u st.pending_mfa = none →
        complete_mfa st u code now r saveOk dn = (st, .error 400)) ∧
    (∀ m, lookupKey u st.pending_mfa = some m → now - m.created_at > 600 →
        complete_mfa st u code now r saveOk dn =
          ({ st with pending_mfa := eraseKey u st.pending_mfa }, .error 400)) := by
  constructor
  · intro h
    simp [complete_mfa, h]
  · intro m h hexp
    simp [complete_mfa, h, hexp]

/-- Witness for C7: user "u3" has no pending entry (NotFound, 400); user
"u2" is past the TTL at time 1000 (Expired, 400 and purge). -/
theorem C7_witness :
    complete_mfa stW "u3" "111111" 1000 ResumeResult.ok true none =
      (stW, .error 400) ∧
    complete_mfa stW "u2" "111111" 1000 ResumeResult.ok true none =
      ({ stW with pending_mfa := eraseKey "u2" stW.pending_mfa }, .error 400) := by
  constructor
  · exact (C7_thm stW "u3" "111111" 1000 ResumeResult.ok true none).1 (by decide)
  · exact (C7_thm stW "u2" "111111" 1000 ResumeResult.ok true none).2 pendW
      (by decide) (by decide)

/-- Claim C8: `Logout` is idempotent and total: it always reports success,
running it twice equals running it once, and on a user with no session, no
pending challenge and no token file it changes nothing (in particular it
deletes no file). -/
theorem C8_thm (st : ServiceState) (u : String) :
    (logout st u).2 = true ∧
    logout (logout st u).1 u = logout st u ∧
    (lookupKey u st.sessions = none → lookupKey u st.pending_mfa = none →
      u ∉ st.token_files → (logout st u).1 = st) := by
  refine ⟨rfl, ?_, ?_⟩
  · simp [logout, eraseKey_idem, removeFile_idem]
  · intro h1 h2 h3
    simp [logout, eraseKey_eq_self_of_lookup_none _ _ h1,
      eraseKey_eq_self_of_lookup_none _ _ h2,
      removeFile_eq_self_of_not_mem _ _ h3]

/-- Witness for C8: logging out user "u9", who holds no state at all in
`stW`, leaves the state exactly as it was. -/
theorem C8_witness : (logout stW "u9").1 = stW :=
  (C8_thm stW "u9").2.2 (by decide) (by decide) (by decide)

/-- Claim C9: `Status` is read-only and reports: connected with the session
data when a session exists; the degraded token-on-file shape when no session
exists but a token file does; not connected otherwise. -/
theorem C9_thm (st : ServiceState) (u : String) :
    (get_status st u).1 = st ∧
    (∀ s, lookupKey u st.sessions = some s →
        (get_status st u).2 = ⟨true, some s.email, s.last_sync, some s.display_name⟩) ∧
    (lookupKey u st.sessions = none → u ∈ st.token_files →
        (get_status st u).2 = ⟨true, none, none, some "(Token salvato)"⟩) ∧
    (lookupKey u st.sessions = none → u ∉ st.token_files →
        (get_status st u).2 = ⟨false, none, none, none⟩) := by
  refine ⟨?_, ?_, ?_, ?_⟩
  · unfold get_status
    cases h : lookupKey u st.sessions with
    | some s => rfl
    | none =>
        by_cases hf : u ∈ st.token_files
        · simp [hf]
        · simp [hf]
  · intro s h
    simp [get_status, h]
  · intro h hf
    simp [get_status, h, hf]
  · intro h hf
    simp [get_status, h, hf]

/-- Witness for C9: in `stW`, user "u1" has a session and is reported
connected with its data; user "u3" has neither session nor token file and is
reported not connected. -/
theorem C9_witness :
    (get_status stW "u1").2 =
      ⟨true, some "a@x.com", none, some "A"⟩ ∧
    (get_status stW "u3").2 = ⟨false, none, none, none⟩ := by
  constructor
  · exact (C9_thm stW "u1").2.1 sessionW (by decide)
  · exact (C9_thm stW "u3").2.2.2 (by decide) (by decide)

/-- Claim C10: for a user with a valid, unexpired PendingChallenge, a remote
resume failure that the classifier maps neither to 401 (invalid code) nor to
429 (rate limit) — the unclassified 500 path — leaves the whole state
unchanged: the pending entry stays, no session is created, no token file is
written. -/
theorem C10_thm (st : ServiceState) (u code : String) (now : Nat)
    (msg : String) (m : PendingMfa) (saveOk : Bool) (dn : Option String)
    (h : lookupKey u st.pending_mfa = some m)
    (hexp : now - m.created_at ≤ 600)
    (hc : classify_mfa_error msg = 500) :
    complete_mfa st u code now (.exn msg) saveOk dn = (st, .error 500) := by
  have hnot : ¬ (now - m.created_at > 600) := by omega
  simp [complete_mfa, h, hnot, hc]

/-- Witness for C10: a "Connection reset by peer" remote failure on user
"u2" within the TTL leaves the state untouched and surfaces 500. -/
theorem C10_witness :
    complete_mfa stW "u2" "111111" 200 (.exn "Connection reset by peer") true
      none = (stW, .error 500) :=
  C10_thm stW "u2" "111111" 200 "Connection reset by peer" pendW true none
    (by decide) (by decide) (by decide)

/-- Claim C1 (counterexample): the mutual-exclusion invariant fails on a
reachable state.  From the empty state, a successful login of "u1" creates a
session; a second login of "u1" that ends in ChallengeRequired then leaves
both a `sessions` entry and a `pending_mfa` entry for "u1". -/
theorem C1_counterexample :
    let st1 := (login st_empty "u1" "a@x.com" "pw1" 0 1 GarminLoginResult.ok
      true (some "A")).1
    let st2 := (login st1 "u1" "a@x.com" "pw1" 10 2
      (GarminLoginResult.needsMfa 5) true none).1
    (lookupKey "u1" st2.sessions).isSome = true ∧
    (lookupKey "u1" st2.pending_mfa).isSome = true := by decide

/-- Claim C1 (amended): mutual exclusion of Session and PendingChallenge is
not an invariant.  A login ending in ChallengeRequired installs a pending
entry for the user while leaving the `sessions` store untouched, so a user
who already held a session now holds both. -/
theorem C1_amended_thm (st : ServiceState) (u e p : String)
    (now c ms : Nat) (saveOk : Bool) (dn : Option String) :
    ((login st u e p now c (.needsMfa ms) saveOk dn).1).sessions =
      st.sessions ∧
    lookupKey u ((login st u e p now c (.needsMfa ms) saveOk dn).1).pending_mfa
      = some ⟨c, ms, e, now⟩ := by
  exact ⟨rfl, lookupKey_insertKey_self u _ _⟩

/-- Claim C2 (counterexample): starting a new login does not clear an
existing Session.  After a successful login of "u1", a second login attempt
for "u1" that fails at the remote (classified 500) ends with the original
session record still present, though the claim requires it to have been
cleared before the remote call. -/
theorem C2_counterexample :
    let st1 := (login st_empty "u1" "a@x.com" "pw1" 0 1 GarminLoginResult.ok
      true (some "A")).1
    lookupKey "u1" ((login st1 "u1" "a@x.com" "pw1" 20 2
        (GarminLoginResult.exn "boom") true none).1).sessions =
      some ⟨1, "a@x.com", "A", none, 0⟩ := by decide

/-- Claim C2 (amended): before contacting the remote provider, `Login`
clears any pending MFA entry for the user and deletes the per-user token
file, but leaves the `sessions` store untouched (an existing Session for
the id is not cleared). -/
theorem C2_amended_thm (st : ServiceState) (u : String) (now : Nat) :
    lookupKey u (login_prelude st u now).pending_mfa = none ∧
    u ∉ (login_prelude st u now).token_files ∧
    (login_prelude st u now).sessions = st.sessions :=
  ⟨lookupKey_eraseKey_self u _, not_mem_removeFile u _, rfl⟩

/-- Claim C3 (counterexample): a persisted credential is never reused.
After a successful login of "u1" writes a token file, a second login for
"u1" whose fresh password authentication fails returns HTTP 401 — not
`Authenticated` — and the token file has been deleted unexamined, although
the claim promises `Authenticated` without the password endpoint whenever a
(still-valid) persisted credential exists. -/
theorem C3_counterexample :
    let st1 := (login st_empty "u1" "a@x.com" "pw1" 0 1 GarminLoginResult.ok
      true (some "A")).1
    let res := login st1 "u1" "a@x.com" "pw1" 50 2 (GarminLoginResult.exn "401")
      true none
    ("u1" ∈ st1.token_files) ∧
    res.2 = HResult.error 401 ∧
    ("u1" ∉ res.1.token_files) := by decide

/-- Claim C3 (amended): `Login` never loads a persisted credential.  Even
when a token file exists for the user, the file is deleted before
authentication and the outcome is decided entirely by the fresh remote
password authentication: if that call fails with a 401-classified error,
login returns HTTP 401, creates no session, and leaves no token file. -/
theorem C3_amended_thm (st : ServiceState) (u e p : String) (now c : Nat)
    (msg : String) (saveOk : Bool) (dn : Option String)
    (hfile : u ∈ st.token_files)
    (hc : classify_login_error msg = 401) :
    (login st u e p now c (.exn msg) saveOk dn).2 = .error 401 ∧
    ((login st u e p now c (.exn msg) saveOk dn).1).sessions = st.sessions ∧
    u ∉ ((login st u e p now c (.exn msg) saveOk dn).1).token_files := by
  refine ⟨?_, rfl, not_mem_removeFile u _⟩
  simp [login, hc]

/-- Witness for C3 (amended) at a concrete state: "u1" has a token file in
`stW`, and a login whose password authentication fails with "401" returns
HTTP 401. -/
theorem C3_witness :
    (login stW "u1" "a@x.com" "pw1" 50 3 (GarminLoginResult.exn "401") true
      none).2 = HResult.error 401 :=
  (C3_amended_thm stW "u1" "a@x.com" "pw1" 50 3 "401" true none (by decide)
    (by decide)).1

/-- Claim C4 (counterexample): a remote failure that signals an invalid
credential ("401 ... Unauthorized") during activity fetching is surfaced as
an unclassified HTTP 500 and the session of "u1" is NOT evicted, though the
claim requires eviction and a SessionExpired classification. -/
theorem C4_counterexample :
    (get_swimming_activities stW "u1" 30 1000
        (.exn "401 Client Error Unauthorized")).2 = HResult.error 500 ∧
    lookupKey "u1" ((get_swimming_activities stW "u1" 30 1000
        (.exn "401 Client Error Unauthorized")).1).sessions = some sessionW := by
  decide

/-- Claim C4 (amended): every remote failure during `get_swimming_activities`
or `sync_activities` — including one signalling that the credential is no
longer valid — leaves the state (in particular the Session of the user)
completely unchanged and surfaces as an unclassified HTTP 500; no eviction
and no SessionExpired classification happen. -/
theorem C4_amended_thm (st : ServiceState) (u : String) (days_back now : Nat)
    (msg : String) (s : Session)
    (h : lookupKey u st.sessions = some s) :
    get_swimming_activities st u days_back now (.exn msg) = (st, .error 500) ∧
    sync_activities st u days_back now (.exn msg) = (st, .error 500) := by
  constructor
  · simp [get_swimming_activities, h]
  · simp [sync_activities, get_swimming_activities, h]

/-- Witness for C4 (amended): user "u1" holds a session in `stW`; a failing
fetch returns 500 and the state is exactly `stW`. -/
theorem C4_witness :
    get_swimming_activities stW "u1" 30 1000 (.exn "timeout") =
      (stW, .error 500) ∧
    sync_activities stW "u1" 30 1000 (.exn "timeout") = (stW, .error 500) :=
  C4_amended_thm stW "u1" 30 1000 "timeout" sessionW (by decide)

/-- Claim C5 (counterexample): the TTL boundary is strict in the code.  A
pending challenge created at time 0 is still resumable at exactly
Δ = 600 seconds: a code submission with a successful remote resume returns
success (not Expired), and the MFA status endpoint still reports it pending
— though the claim requires Δ = 600 to be treated as expired. -/
theorem C5_counterexample :
    let st1 := (login st_empty "u2" "b@x.com" "pw2" 0 2
      (GarminLoginResult.needsMfa 9) true none).1
    (complete_mfa st1 "u2" "654321" 600 ResumeResult.ok true none).2 =
      HResult.ok ⟨true, some "u2", false⟩ ∧
    (get_mfa_status st1 "u2" 600).2.pending = true := by decide

/-- Claim C5 (amended): a PendingChallenge created at time T is resumable
for any access at T+Δ with Δ ≤ 600s; for Δ > 600s every access reports it
expired and purges it: a code submission purges the entry and fails with
HTTP 400, and the MFA status read sweeps the entry and reports nothing
pending.  (The boundary Δ = 600 is on the resumable side.) -/
theorem C5_amended_thm (st : ServiceState) (u code : String) (m : PendingMfa)
    (now : Nat) (r : ResumeResult) (saveOk : Bool) (dn : Option String)
    (hn : (st.pending_mfa.map Prod.fst).Nodup)
    (h : lookupKey u st.pending_mfa = some m) :
    (now - m.created_at > 600 →
        complete_mfa st u code now r saveOk dn =
          ({ st with pending_mfa := eraseKey u st.pending_mfa }, .error 400) ∧
        (get_mfa_status st u now).2 = ⟨false, 0⟩ ∧
        lookupKey u ((get_mfa_status st u now).1).pending_mfa = none) ∧
    (now - m.created_at ≤ 600 →
        (get_mfa_status st u now).2.pending = true ∧
        complete_mfa st u code now ResumeResult.ok saveOk dn =
          ({ sessions :=
               insertKey u ⟨m.client, m.email, dn.getD m.email, none, now⟩
                 st.sessions,
             pending_mfa := eraseKey u st.pending_mfa,
             token_files :=
               if saveOk then u :: removeFile u st.token_files
               else st.token_files },
           .ok ⟨true, some u, false⟩)) := by
  have hclean := lookupKey_cleanup now u m st.pending_mfa hn h
  constructor
  · intro hexp
    rw [if_pos hexp] at hclean
    refine ⟨by simp [complete_mfa, h, hexp], ?_, ?_⟩
    · simp [get_mfa_status, hclean]
    · simp [get_mfa_status, hclean]
  · intro hexp
    have hnot : ¬ (now - m.created_at > 600) := by omega
    rw [if_neg hnot] at hclean
    exact ⟨by simp [get_mfa_status, hclean], by simp [complete_mfa, h, hnot]⟩

/-- Witness for C5 (amended): for the entry of "u2" created at time 100, a
code submission at time 701 (Δ = 601) is purged with HTTP 400, and the MFA
status read at time 700 (Δ = 600) still reports it pending. -/
theorem C5_witness :
    complete_mfa stW "u2" "000000" 701 ResumeResult.ok true none =
      ({ stW with pending_mfa := eraseKey "u2" stW.pending_mfa },
       .error 400) ∧
    (get_mfa_status stW "u2" 700).2.pending = true := by
  constructor
  · exact ((C5_amended_thm stW "u2" "000000" pendW 701 ResumeResult.ok true
      none (by decide) (by decide)).1 (by decide)).1
  · exact ((C5_amended_thm stW "u2" "000000" pendW 700 ResumeResult.ok true
      none (by decide) (by decide)).2 (by decide)).1

end GarminService
